import Mathlib

/-!
Verification of the `qlik_export` repository's core: the JSON-RPC client in
`classes/qlik_wrapper.py` (message sending/receiving, layout materialization,
metadata enumerators, master-item merging), the report writer in
`classes/file_writer_helper.py`, and the Excel-value sanitizer in
`export_masteritems.py`.

The Python source is shallowly embedded: JSON values become the inductive
type `J`, Python dict/list primitives (`.get`, `[]`, `in`, `join`, iteration,
truthiness) become total Lean functions returning `Except` where Python would
raise, and the WebSocket session becomes an explicit `Session` record whose
incoming frames are a list consumed in order.
-/

/-- A parsed JSON value, as produced by Python's `json.loads`. -/
inductive J where
  | null
  | b (v : Bool)
  | i (n : Int)
  | s (v : String)
  | arr (xs : List J)
  | obj (kvs : List (String × J))
deriving Repr, BEq

/-- Python truthiness (`if value:`) for JSON values: `None`, `False`, `0`,
`""`, `[]`, `{}` are falsy, everything else truthy. -/
def jTruthy : J → Bool
  | .null => false
  | .b v => v
  | .i n => n != 0
  | .s v => !v.isEmpty
  | .arr xs => !xs.isEmpty
  | .obj kvs => !kvs.isEmpty

/-- Python `d.get(key, default)`: on a dict, the value for `key` or the
default; on any non-dict value, raises `AttributeError` (no `.get`). -/
def pyGet (v : J) (key : String) (dflt : J) : Except String J :=
  match v with
  | .obj kvs => .ok ((kvs.lookup key).getD dflt)
  | _ => .error "AttributeError"

/-- Python `d.get(key)` with no default: the value for `key` or `None`;
raises `AttributeError` on a non-dict. -/
def pyGetNone (v : J) (key : String) : Except String J :=
  match v with
  | .obj kvs => .ok ((kvs.lookup key).getD .null)
  | _ => .error "AttributeError"

/-- Python `d[key]` string subscription: `KeyError` when the key is absent,
`TypeError` when the value is not a dict. -/
def pySub (v : J) (key : String) : Except String J :=
  match v with
  | .obj kvs =>
    match kvs.lookup key with
    | some x => .ok x
    | none => .error "KeyError"
  | _ => .error "TypeError"

/-- Whether `p` occurs as a contiguous run inside `l`. -/
def charsInfix (p : List Char) : List Char → Bool
  | [] => p.isEmpty
  | c :: rest => p.isPrefixOf (c :: rest) || charsInfix p rest

/-- Python `key in v` for a string key: dict key membership, list element
membership, substring test on strings; `TypeError` otherwise. -/
def pyIn (key : String) (v : J) : Except String Bool :=
  match v with
  | .obj kvs => .ok (kvs.lookup key).isSome
  | .arr xs => .ok (xs.contains (J.s key))
  | .s t => .ok (charsInfix key.data t.data)
  | _ => .error "TypeError"

/-- The strings of a JSON list, when every element is a string. -/
def strsOf : List J → Option (List String)
  | [] => some []
  | .s v :: rest => (strsOf rest).map (v :: ·)
  | _ => none

/-- Python `sep.join(v)`: joining a string joins its characters, joining a
list requires every element to be a string (`TypeError` otherwise). -/
def pyJoin (sep : String) (v : J) : Except String String :=
  match v with
  | .s t => .ok (String.intercalate sep (t.data.map String.singleton))
  | .arr xs =>
    match strsOf xs with
    | some ss => .ok (String.intercalate sep ss)
    | none => .error "TypeError"
  | _ => .error "TypeError"

/-- Python `for x in v`: a list yields its elements, a dict its keys, a
string its characters (as one-character strings); `TypeError` otherwise. -/
def pyIterList (v : J) : Except String (List J) :=
  match v with
  | .arr xs => .ok xs
  | .obj kvs => .ok (kvs.map fun kv => J.s kv.1)
  | .s t => .ok (t.data.map fun c => J.s (String.singleton c))
  | _ => .error "TypeError"

/-- One frame delivered by `ws.receive()`: a TEXT frame carrying parsed JSON,
a frame of `WSMsgType.ERROR`, some other frame type (skipped by the receive
loop), or a receive that raises (transport exception / undecodable payload). -/
inductive WSMsg where
  | text (data : J)
  | wserror
  | other
  | exc
deriving Repr, BEq

/-- The client state of `QlikWrapper` relevant to the WebSocket JSON-RPC
flow: the `msg_id` counter, the stored `app_handle`, the incoming frames the
channel will deliver (consumed front to back), and the log of envelopes
actually written to the wire (a failed write appends nothing). -/
structure Session where
  msg_id : Nat
  app_handle : J
  stream : List WSMsg
  sent : List J
deriving Repr, BEq

/-- `QlikWrapper._send`: increments `msg_id`, builds the JSON-RPC envelope,
attempts the channel write (`writeOk = false` models `ws.send_str` raising:
the exception is caught and only logged), and returns the new id in every
case. -/
def _send (st : Session) (method : String) (handle : J) (params : J)
    (writeOk : Bool) : Session × Nat :=
  let newId := st.msg_id + 1
  let msg : J := .obj [("jsonrpc", .s "2.0"), ("id", .i newId),
    ("method", .s method), ("handle", handle),
    ("params", if jTruthy params then params else .obj [])]
  ({ st with
      msg_id := newId
      sent := if writeOk then st.sent ++ [msg] else st.sent }, newId)

/-- The receive loop of `QlikWrapper._receive` over the remaining frames:
a TEXT frame whose data contains a `result` or `error` key is returned,
other TEXT frames and non-TEXT/non-ERROR frames are skipped, an ERROR frame
breaks out of the loop (falling through to return `None`), and an exception
(from `ws.receive`, `json.loads`, or an `in` test on a non-container) is
caught and yields `None`. An exhausted frame list models a channel that
never delivers another frame, so the call never produces a reply. -/
def receiveAux : List WSMsg → Option J × List WSMsg
  | [] => (none, [])
  | .exc :: rest => (none, rest)
  | .wserror :: rest => (none, rest)
  | .other :: rest => receiveAux rest
  | .text d :: rest =>
    match pyIn "error" d, pyIn "result" d with
    | .error _, _ => (none, rest)
    | _, .error _ => (none, rest)
    | .ok hasErr, .ok hasRes =>
      if hasRes || hasErr then (some d, rest) else receiveAux rest

/-- `QlikWrapper._receive`: consumes frames from the session's channel until
one complete reply (a dict with `result` or `error`) arrives, and returns it;
on a channel ERROR frame or an exception it returns `None`. -/
def _receive (st : Session) : Option J × Session :=
  let (r, rest) := receiveAux st.stream
  (r, { st with stream := rest })

/-- The reply consumed by the first step of `_get_layout` (the
`CreateSessionObject` call on the app handle). -/
def glRecv1 (st : Session) (definition : J) : Option J × Session :=
  _receive (_send st "CreateSessionObject" st.app_handle
    (.obj [("qProp", definition)]) true).1

/-- The reply consumed by the second step of `_get_layout` (the `GetLayout`
call on the session-object handle returned by the first step). -/
def glRecv2 (st : Session) (handle : J) : Option J × Session :=
  _receive (_send st "GetLayout" handle .null true).1

/-- The handle extraction `obj_response['result']['qReturn']['qHandle']`
performed by `_get_layout` between its two steps. -/
def glHandle (reply : J) : Except String J := do
  let a ← pySub reply "result"
  let b ← pySub a "qReturn"
  pySub b "qHandle"

/-- `QlikWrapper._get_layout`: `CreateSessionObject` then `GetLayout`, two
sequential request/reply exchanges. Returns the layout reply only when both
replies arrive and neither carries an `error` key; any error payload,
missing reply, or exception (absent handle path, `in` on a non-container)
yields `None`. -/
def _get_layout (st : Session) (definition : J) : Option J × Session :=
  let (objResp?, s2) := glRecv1 st definition
  match objResp? with
  | none => (none, s2)
  | some objResp =>
    match pyIn "error" objResp with
    | .error _ => (none, s2)
    | .ok true => (none, s2)
    | .ok false =>
      match glHandle objResp with
      | .error _ => (none, s2)
      | .ok h =>
        let (layoutResp?, s4) := glRecv2 s2 h
        match layoutResp? with
        | none => (none, s4)
        | some layoutResp =>
          match pyIn "error" layoutResp with
          | .error _ => (none, s4)
          | .ok true => (none, s4)
          | .ok false => (some layoutResp, s4)

/-- The `DimensionList` session-object definition of `get_dimension_list`. -/
def dimensionListDef : J :=
  .obj [("qInfo", .obj [("qType", .s "DimensionList")]),
    ("qDimensionListDef", .obj [("qType", .s "dimension"),
      ("qData", .obj [("title", .s "/qMetaDef/title"),
        ("tags", .s "/qMetaDef/tags"),
        ("definition", .s "/qDim/qFieldDefs")])])]

/-- The `MeasureList` session-object definition of `get_measure_list`. -/
def measureListDef : J :=
  .obj [("qInfo", .obj [("qType", .s "MeasureList")]),
    ("qMeasureListDef", .obj [("qType", .s "measure"),
      ("qData", .obj [("title", .s "/qMetaDef/title"),
        ("tags", .s "/qMetaDef/tags"),
        ("definition", .s "/qMeasure/qDef")])])]

/-- The `VariableList` session-object definition of `get_var_list`. -/
def varListDef : J :=
  .obj [("qInfo", .obj [("qType", .s "VariableList")]),
    ("qVariableListDef", .obj [("qType", .s "variable"),
      ("qData", .obj [("tags", .s "/tags"),
        ("title", .s "/title"),
        ("definition", .s "/definition")])])]

/-- The chained extraction
`layout.get("result", {}).get("qLayout", {}).get(listKey, {}).get("qItems", [])`
shared by the three list enumerators. When the layout is `None` (failed
materialize) the very first `.get` raises `AttributeError`. -/
def extractItems (layout? : Option J) (listKey : String) : Except String J :=
  match layout? with
  | none => .error "AttributeError"
  | some layout => do
    let a ← pyGet layout "result" (.obj [])
    let b ← pyGet a "qLayout" (.obj [])
    let c ← pyGet b listKey (.obj [])
    pyGet c "qItems" (.arr [])

/-- `QlikWrapper.get_dimension_list`: materializes the `DimensionList`
session object and extracts `qItems` with empty-dict/empty-list defaults. -/
def get_dimension_list (st : Session) : Except String J × Session :=
  let (layout?, s2) := _get_layout st dimensionListDef
  (extractItems layout? "qDimensionList", s2)

/-- `QlikWrapper.get_measure_list`: materializes the `MeasureList` session
object and extracts `qItems` with empty-dict/empty-list defaults. -/
def get_measure_list (st : Session) : Except String J × Session :=
  let (layout?, s2) := _get_layout st measureListDef
  (extractItems layout? "qMeasureList", s2)

/-- `QlikWrapper.get_var_list`: materializes the `VariableList` session
object and extracts `qItems` with empty-dict/empty-list defaults. -/
def get_var_list (st : Session) : Except String J × Session :=
  let (layout?, s2) := _get_layout st varListDef
  (extractItems layout? "qVariableList", s2)

/-- The reply consumed by the first step of `get_measure` (the `GetMeasure`
call on the app handle). -/
def gmRecv (st : Session) (measure_id : J) : Option J × Session :=
  _receive (_send st "GetMeasure" st.app_handle
    (.obj [("qId", measure_id)]) true).1

/-- `QlikWrapper.get_measure`: `GetMeasure` on the app handle, then
`GetLayout` on the returned measure handle. Every failure path — a reply
carrying an `error` payload, a missing reply, or an exception while digging
out the handle or layout — is caught and yields the empty dict `{}`. -/
def get_measure (st : Session) (measure_id : J) : J × Session :=
  let (resp?, s2) := gmRecv st measure_id
  match resp? with
  | none => (.obj [], s2)
  | some resp =>
    match pyIn "error" resp with
    | .error _ => (.obj [], s2)
    | .ok true => (.obj [], s2)
    | .ok false =>
      match glHandle resp with
      | .error _ => (.obj [], s2)
      | .ok h =>
        let (resp2?, s4) := glRecv2 s2 h
        match resp2? with
        | none => (.obj [], s4)
        | some resp2 =>
          match pyIn "error" resp2 with
          | .error _ => (.obj [], s4)
          | .ok true => (.obj [], s4)
          | .ok false =>
            match (do let a ← pySub resp2 "result"; pySub a "qLayout") with
            | .error _ => (.obj [], s4)
            | .ok lay => (lay, s4)

/-- The row appended for one measure by `get_measure_list_detailed`:
`[measure_id, measure_title, ", ".join(tags), qDef, qLabelExpression,
descriptionExpression]`, with each field read from the fetched layout via
`.get` chains defaulting to the empty string. Raises (into `Except`) only
when the layout's sub-values have the wrong shapes. -/
def measureRow (measure_id measure_title layout : J) :
    Except String (List J) := do
  let qMeta ← pyGet layout "qMeta" (.obj [])
  let tagsV ← pyGet qMeta "tags" (.s "")
  let tags ← pyJoin ", " tagsV
  let qMeas ← pyGet layout "qMeasure" (.obj [])
  let qDef ← pyGet qMeas "qDef" (.s "")
  let qLabel ← pyGet qMeas "qLabelExpression" (.s "")
  let qDesc ← pyGet qMeas "descriptionExpression" (.s "")
  .ok [measure_id, measure_title, .s tags, qDef, qLabel, qDesc]

/-- The per-item loop of `get_measure_list_detailed`: items without a truthy
`qId` are logged and skipped; for the rest, `get_measure` is called (it never
raises) and the detail row is appended — an exception while building the row
is caught by the loop's `try`, logged, and the loop continues. Exceptions
from `measure.get(...)` on a malformed item happen outside the `try` and
propagate. -/
def measure_detail_loop (st : Session) :
    List J → Except String (List (List J) × Session)
  | [] => .ok ([], st)
  | m :: rest => do
    let qInfoV ← pyGet m "qInfo" (.obj [])
    let measure_id ← pyGetNone qInfoV "qId"
    let qMetaV ← pyGet m "qMeta" (.obj [])
    let measure_title ← pyGet qMetaV "title" (.s "❗ No Title")
    if jTruthy measure_id then
      let (layout, s2) := get_measure st measure_id
      match measureRow measure_id measure_title layout with
      | .error _ => measure_detail_loop s2 rest
      | .ok row => do
        let (rows, s3) ← measure_detail_loop s2 rest
        .ok (row :: rows, s3)
    else
      measure_detail_loop st rest

/-- `QlikWrapper.get_measure_list_detailed`: fetches the measure summary
list, iterates it, and builds one detail row per measure via `get_measure`.
Failures of the summary fetch (`AttributeError` on a `None` layout) or of
iteration propagate; per-item detail failures do not. -/
def get_measure_list_detailed (st : Session) :
    Except String (List (List J) × Session) := do
  let (itemsE, s1) := get_measure_list st
  let itemsV ← itemsE
  let measures ← pyIterList itemsV
  measure_detail_loop s1 measures

/-- Python `row[i]` list indexing: `IndexError` when out of range. -/
def pyIdx (row : List J) (i : Nat) : Except String J :=
  match row.get? i with
  | some v => .ok v
  | none => .error "IndexError"

/-- The `all_columns` default of `get_masteritems_detailed`. -/
def all_columns : List String :=
  ["ID", "Title", "Label", "Description", "Expression", "Tags", "Type",
    "ItemType"]

/-- The row built for one detailed dimension by `get_masteritems_detailed`,
appending the selected columns in the source's fixed order. A detailed
dimension is `[id, title, description, tags, field_defs, field_labels,
type]`; Label reads index 5, Expression index 4, Tags index 3, Type index 6,
and a falsy description becomes `""`. -/
def dimItemRow (columns : List String) (dim : List J) :
    Except String (List J) := do
  let r0 : List J := []
  let r1 ← if "ID" ∈ columns then do
      let v ← pyIdx dim 0; pure (r0 ++ [v])
    else pure r0
  let r2 ← if "Title" ∈ columns then do
      let v ← pyIdx dim 1; pure (r1 ++ [v])
    else pure r1
  let r3 ← if "Label" ∈ columns then do
      let v ← pyIdx dim 5; pure (r2 ++ [v])
    else pure r2
  let r4 ← if "Description" ∈ columns then do
      let v ← pyIdx dim 2
      pure (r3 ++ [if jTruthy v then v else .s ""])
    else pure r3
  let r5 ← if "Expression" ∈ columns then do
      let v ← pyIdx dim 4; pure (r4 ++ [v])
    else pure r4
  let r6 ← if "Tags" ∈ columns then do
      let v ← pyIdx dim 3; pure (r5 ++ [v])
    else pure r5
  let r7 ← if "Type" ∈ columns then do
      let v ← pyIdx dim 6; pure (r6 ++ [v])
    else pure r6
  if "ItemType" ∈ columns then pure (r7 ++ [.s "Dimension"]) else pure r7

/-- The row built for one detailed measure by `get_masteritems_detailed`.
A detailed measure is `[id, title, tags, expression, label, description]`.
The Label column reads `dim[4]` — the loop variable left over from the
dimensions loop (`lastDim`), i.e. the last dimension's field-definitions
entry — and raises `NameError` when the dimensions loop never ran. -/
def measItemRow (columns : List String) (lastDim : Option (List J))
    (meas : List J) : Except String (List J) := do
  let r0 : List J := []
  let r1 ← if "ID" ∈ columns then do
      let v ← pyIdx meas 0; pure (r0 ++ [v])
    else pure r0
  let r2 ← if "Title" ∈ columns then do
      let v ← pyIdx meas 1; pure (r1 ++ [v])
    else pure r1
  let r3 ← if "Label" ∈ columns then
      match lastDim with
      | none => Except.error "NameError"
      | some d => do let v ← pyIdx d 4; pure (r2 ++ [v])
    else pure r2
  let r4 ← if "Description" ∈ columns then do
      let v ← pyIdx meas 5
      pure (r3 ++ [if jTruthy v then v else .s ""])
    else pure r3
  let r5 ← if "Expression" ∈ columns then do
      let v ← pyIdx meas 3; pure (r4 ++ [v])
    else pure r4
  let r6 ← if "Tags" ∈ columns then do
      let v ← pyIdx meas 2; pure (r5 ++ [v])
    else pure r5
  let r7 ← if "Type" ∈ columns then pure (r6 ++ [J.s " "]) else pure r6
  if "ItemType" ∈ columns then pure (r7 ++ [.s "Measure"]) else pure r7

/-- The row built for one variable by `get_masteritems_detailed`. A variable
record is `[id, name, definition, tags]`; Label is always `""`, Description
and Type always `" "`. -/
def varItemRow (columns : List String) (v : List J) :
    Except String (List J) := do
  let r0 : List J := []
  let r1 ← if "ID" ∈ columns then do
      let x ← pyIdx v 0; pure (r0 ++ [x])
    else pure r0
  let r2 ← if "Title" ∈ columns then do
      let x ← pyIdx v 1; pure (r1 ++ [x])
    else pure r1
  let r3 := if "Label" ∈ columns then r2 ++ [J.s ""] else r2
  let r4 := if "Description" ∈ columns then r3 ++ [J.s " "] else r3
  let r5 ← if "Expression" ∈ columns then do
      let x ← pyIdx v 2; pure (r4 ++ [x])
    else pure r4
  let r6 ← if "Tags" ∈ columns then do
      let x ← pyIdx v 3; pure (r5 ++ [x])
    else pure r5
  let r7 := if "Type" ∈ columns then r6 ++ [J.s " "] else r6
  if "ItemType" ∈ columns then pure (r7 ++ [.s "Variable"]) else pure r7

/-- Left-to-right row building over a list, stopping at the first raised
exception — the three `for` loops of `get_masteritems_detailed`. -/
def mapRows (f : List J → Except String (List J)) :
    List (List J) → Except String (List (List J))
  | [] => .ok []
  | x :: xs => do
    let y ← f x
    let ys ← mapRows f xs
    .ok (y :: ys)

/-- `QlikWrapper.get_masteritems_detailed`, given the already-enumerated
detailed dimension, measure, and variable lists: builds one combined row
list — dimensions, then measures, then variables (the latter only when
`include_variables`) — selecting the requested columns (all of them when
`columns` is `None`). The measure rows' Label column reads the leftover
dimension loop variable, i.e. the last dimension. -/
def get_masteritems_detailed (dimensions measures vars : List (List J))
    (include_variables : Bool) (columns : Option (List String)) :
    Except String (List (List J)) := do
  let cols := columns.getD all_columns
  let drows ← mapRows (dimItemRow cols) dimensions
  let mrows ← mapRows (measItemRow cols dimensions.getLast?) measures
  let vrows ← if include_variables then mapRows (varItemRow cols) vars
    else pure []
  .ok (drows ++ mrows ++ vrows)

/-- `FileWriterHelper._write_line`: opens the target file with mode `"w"`
(truncating it) and writes the single line plus a newline, so the previous
contents are discarded. -/
def _write_line (_contents : String) (line : String) : String :=
  line ++ "\n"

/-- `FileWriterHelper.write_title`: one `_write_line` of the spacer followed
by the title. -/
def write_title (contents : String) (title : String) (spacer : String) :
    String :=
  _write_line contents (spacer ++ title)

/-- A report cell value as passed to `print_bullet_from_array`: a string or
a list of strings (the shapes the enumerators produce). -/
inductive BVal where
  | s (v : String)
  | l (vs : List String)
deriving Repr, BEq

/-- The rendering `print_bullet_from_array` applies to one value: a list is
joined with `", "`, or replaced by `No <field lowercased>` when empty. -/
def bulletValue (field : String) : BVal → String
  | .s v => v
  | .l vs =>
    if vs.isEmpty then "No " ++ field.toLower else String.intercalate ", " vs

/-- The sequence of lines `FileWriterHelper.print_bullet_from_array` feeds
to `_write_line`: per item, either one mismatch diagnostic (when the field
and value counts differ) or one `   - field: value` line per field followed
by one empty line. -/
def bulletLines (data : List (List BVal)) (fields : List String) :
    List String :=
  data.flatMap fun item =>
    if item.length ≠ fields.length then
      ["❗ Error: The number of fields does not match the number of values in the current item."]
    else
      ((fields.zip item).map fun fv =>
        "   - " ++ fv.1 ++ ": " ++ bulletValue fv.1 fv.2) ++ [""]

/-- `FileWriterHelper.print_bullet_from_array`: every emitted line goes
through `_write_line` against the current file contents. -/
def print_bullet_from_array (contents : String) (data : List (List BVal))
    (fields : List String) : String :=
  (bulletLines data fields).foldl _write_line contents

/-- `sanitize_excel_value` from `export_masteritems.py`, after Python's
`str(value)` coercion: prefixes an apostrophe when formula protection is on
and the string starts with one of `=`, `+`, `-`, `/`, `*` (the tuple form of
`str.startswith`). -/
def sanitize_excel_value (value : String) (protect_formula : Bool) :
    String :=
  if protect_formula
      && (["=", "+", "-", "/", "*"].any fun p => p.data.isPrefixOf value.data)
    then String.singleton (Char.ofNat 39) ++ value
    else value

/-- One `_send` call's inputs: method, handle, params, and whether the
underlying channel write succeeds. -/
structure CallSpec where
  method : String
  handle : J
  params : J
  writeOk : Bool

/-- A back-to-back sequence of `_send` calls on one session, collecting the
returned sequence ids in order. -/
def send_seq (st : Session) : List CallSpec → List Nat × Session
  | [] => ([], st)
  | c :: cs =>
    let (s1, id1) := _send st c.method c.handle c.params c.writeOk
    let (ids, s2) := send_seq s1 cs
    (id1 :: ids, s2)

/-- A reply carrying only an error payload, as in the spec's failure
scenarios. -/
def errorReply : J := .obj [("error", .obj [("message", .s "not found")])]

/-- A successful reply whose result carries the object handle `h`. -/
def handleReply (h : Int) : J :=
  .obj [("result", .obj [("qReturn", .obj [("qHandle", .i h)])])]

/-- A measure summary item with id `mId1` and title `M1`. -/
def measureItem1 : J := .obj [("qInfo", .obj [("qId", .s "mId1")]),
  ("qMeta", .obj [("title", .s "M1")])]

/-- A `MeasureList` layout reply whose `qItems` holds `measureItem1`. -/
def measureListReply1 : J := .obj [("result", .obj [("qLayout", .obj
  [("qMeasureList", .obj [("qItems", .arr [measureItem1])])])])]

/-- A session whose next reply carries an error payload. -/
def failSession : Session := ⟨0, .i 1, [.text errorReply], []⟩

/-- A session for a full detailed enumeration: the measure list materializes
successfully with one item, and that item's `GetMeasure` reply then carries
an error payload. -/
def enumSession : Session :=
  ⟨0, .i 1, [.text (handleReply 2), .text measureListReply1,
    .text errorReply], []⟩

/-- A session whose channel delivers a `WSMsgType.ERROR` frame. -/
def wsErrorSession : Session := ⟨0, .i 1, [.wserror], []⟩

/-- A detailed dimension record (`[id, title, description, tags, field_defs,
field_labels, type]`), first of the merge scenario. -/
def dimRecA : List J :=
  [.s "d1", .s "D1", .s "descD1", .s "t1, t2", .arr [.s "[F1]"],
    .s "lblD1", .s "single"]

/-- Second detailed dimension record of the merge scenario. -/
def dimRecB : List J :=
  [.s "d2", .s "D2", .s "", .s "", .arr [.s "[F2]"], .s "lblD2", .s "multi"]

/-- A detailed measure record (`[id, title, tags, expression, label,
description]`) of the merge scenario. -/
def measRec : List J :=
  [.s "m1", .s "M1", .s "tg", .s "Sum(x)", .s "lblM1", .s "descM1"]

/-- A variable record (`[id, name, definition, tags]`) of the merge
scenario. -/
def varRec : List J := [.s "v1", .s "V1", .s "=1+1", .s "vt"]

/-- The row `get_masteritems_detailed` computes for a detailed dimension
record under the default (full) column set, as a function of the record. -/
def dimRowFn (d : List J) : List J :=
  [d.getD 0 .null, d.getD 1 .null, d.getD 5 .null,
    (if jTruthy (d.getD 2 .null) then d.getD 2 .null else .s ""),
    d.getD 4 .null, d.getD 3 .null, d.getD 6 .null, .s "Dimension"]

/-- The row `get_masteritems_detailed` computes for a detailed measure
record under the default column set: its Label cell comes from `lastDim`
(the leftover dimension loop variable), not from the measure record. -/
def measRowFn (lastDim : List J) (m : List J) : List J :=
  [m.getD 0 .null, m.getD 1 .null, lastDim.getD 4 .null,
    (if jTruthy (m.getD 5 .null) then m.getD 5 .null else .s ""),
    m.getD 3 .null, m.getD 2 .null, .s " ", .s "Measure"]

/-- The row `get_masteritems_detailed` computes for a variable record under
the default column set. -/
def varRowFn (v : List J) : List J :=
  [v.getD 0 .null, v.getD 1 .null, .s "", .s " ",
    v.getD 2 .null, v.getD 3 .null, .s " ", .s "Variable"]

/-! ## Helper lemmas -/

theorem send_seq_ids (cs : List CallSpec) :
    ∀ st : Session, (send_seq st cs).1 = List.range' (st.msg_id + 1) cs.length := by
  induction cs with
  | nil => intro st; rfl
  | cons c cs ih =>
    intro st
    simp only [send_seq, _send, List.length_cons, List.range'_succ]
    rw [ih]

theorem chain'_succ_range' (s n : Nat) :
    List.Chain' (fun a b => b = a + 1) (List.range' s n) := by
  induction n generalizing s with
  | zero => simp
  | succ m ih =>
    rw [List.range'_succ]
    cases m with
    | zero => simp
    | succ k =>
      rw [List.range'_succ, List.chain'_cons]
      refine ⟨rfl, ?_⟩
      have h := ih (s + 1)
      rwa [List.range'_succ] at h

/-! ## Claim C3 -/

/-- C3: For every sequence of N back-to-back `_send` calls on one Session,
the returned sequence ids are exactly the consecutive integers starting one
past the session's counter — strictly increasing, each one greater than the
previous, with no gaps and no id reused. -/
theorem c3_send_seq_consecutive (st : Session) (cs : List CallSpec) :
    (send_seq st cs).1 = List.range' (st.msg_id + 1) cs.length ∧
    List.Chain' (fun a b => b = a + 1) (send_seq st cs).1 ∧
    (send_seq st cs).1.Nodup := by
  have h := send_seq_ids cs st
  refine ⟨h, ?_, ?_⟩
  · rw [h]; exact chain'_succ_range' _ _
  · rw [h]; exact List.nodup_range' _ _

/-! ## Claim C4 -/

/-- C4: `_send` with a failing channel write still consumes and returns the
newly incremented sequence id, leaves the counter incremented, appends
nothing to the wire (the write really failed), and returns the same id a
successful write would have — and no exception reaches the caller (the
embedding of `_send` is a total function). -/
theorem c4_send_id_on_failed_write (st : Session) (method : String)
    (handle params : J) :
    (_send st method handle params false).2 = st.msg_id + 1 ∧
    ((_send st method handle params false).1).msg_id = st.msg_id + 1 ∧
    ((_send st method handle params false).1).sent = st.sent ∧
    (_send st method handle params false).2
      = (_send st method handle params true).2 :=
  ⟨rfl, rfl, rfl, rfl⟩

/-! ## Claim C9 -/

theorem foldl_write_line (lines : List String) :
    ∀ c : String, lines ≠ [] →
      lines.foldl _write_line c = lines.getLast?.getD "" ++ "\n" := by
  induction lines with
  | nil => simp
  | cons l ls ih =>
    intro c _
    cases ls with
    | nil => rfl
    | cons l2 ls2 =>
      rw [List.foldl_cons, ih (_write_line c l) (by simp),
        List.getLast?_cons_cons]

/-- C9: every line emitted through `FileWriterHelper` goes through
`_write_line`, which opens the file in truncating write mode — so after any
nonempty sequence of writes the file holds exactly the most recently written
line plus a trailing newline, whatever its prior contents; in particular
`write_title` and `print_bullet_from_array` leave only their last emitted
line. -/
theorem c9_write_line_truncates :
    (∀ (c : String) (lines : List String), lines ≠ [] →
      lines.foldl _write_line c = lines.getLast?.getD "" ++ "\n") ∧
    (∀ c title spacer : String,
      write_title c title spacer = spacer ++ title ++ "\n") ∧
    (∀ (c : String) (data : List (List BVal)) (fields : List String),
      bulletLines data fields ≠ [] →
      print_bullet_from_array c data fields
        = (bulletLines data fields).getLast?.getD "" ++ "\n") := by
  refine ⟨fun c lines h => foldl_write_line lines c h,
    fun c title spacer => rfl, ?_⟩
  intro c data fields h
  exact foldl_write_line (bulletLines data fields) c h

/-- Witness for C9 at concrete inputs: two successive writes leave only the
second line, and a one-item bullet report leaves only its final (empty)
line. -/
theorem c9_witness :
    ["alpha", "beta"].foldl _write_line "seed" = "beta" ++ "\n" ∧
    print_bullet_from_array "old contents"
      [[BVal.s "v1", BVal.l []]] ["A", "B"] = "" ++ "\n" := by
  constructor
  · have h := c9_write_line_truncates.1 "seed" ["alpha", "beta"] (by simp)
    simpa using h
  · have h := c9_write_line_truncates.2.2 "old contents"
      [[BVal.s "v1", BVal.l []]] ["A", "B"] (by simp [bulletLines])
    simpa [bulletLines] using h

/-! ## Claim C10 -/

theorem singleton_isPrefixOf_iff (c : Char) (l : List Char) :
    ([c].isPrefixOf l = true) ↔ l.head? = some c := by
  cases l with
  | nil => simp [List.isPrefixOf]
  | cons x xs =>
    simp only [List.isPrefixOf, Bool.and_true, beq_iff_eq, List.head?_cons,
      Option.some.injEq]
    exact eq_comm

theorem sanitize_cond_iff (value : String) :
    ((["=", "+", "-", "/", "*"].any fun p => p.data.isPrefixOf value.data)
        = true)
      ↔ value.data.head?
        ∈ [some '=', some '+', some '-', some '/', some '*'] := by
  simp only [List.any_cons, List.any_nil, Bool.or_eq_true, Bool.or_false]
  simp only [singleton_isPrefixOf_iff, List.mem_cons, List.not_mem_nil,
    or_false]

theorem apos_append_ne (value : String) :
    String.singleton (Char.ofNat 39) ++ value ≠ value := by
  intro h
  have h2 := congrArg String.length h
  rw [String.length_append,
    show (String.singleton (Char.ofNat 39)).length = 1 from rfl] at h2
  omega

/-- C10: `sanitize_excel_value` returns `str(value)` prefixed with a single
apostrophe exactly when formula protection is on and the string's first
character is one of `=`, `+`, `-`, `/`, `*`; in every other case it returns
the string unchanged. -/
theorem c10_sanitize_spec (value : String) (b : Bool) :
    (sanitize_excel_value value b
        = String.singleton (Char.ofNat 39) ++ value ↔
      b = true ∧ value.data.head?
        ∈ [some '=', some '+', some '-', some '/', some '*']) ∧
    (¬(b = true ∧ value.data.head?
        ∈ [some '=', some '+', some '-', some '/', some '*']) →
      sanitize_excel_value value b = value) := by
  have hA := sanitize_cond_iff value
  cases hcond : (b && (["=", "+", "-", "/", "*"].any
      fun p => p.data.isPrefixOf value.data)) with
  | false =>
    have hs : sanitize_excel_value value b = value := by
      unfold sanitize_excel_value
      rw [hcond]
      rfl
    have hnot : ¬(b = true ∧ value.data.head?
        ∈ [some '=', some '+', some '-', some '/', some '*']) := by
      rintro ⟨h1, h2⟩
      rw [h1, Bool.true_and, hA.mpr h2] at hcond
      cases hcond
    refine ⟨⟨?_, ?_⟩, fun _ => hs⟩
    · intro hEq
      rw [hs] at hEq
      exact absurd hEq.symm (apos_append_ne value)
    · intro hRhs
      exact absurd hRhs hnot
  | true =>
    have hs : sanitize_excel_value value b
        = String.singleton (Char.ofNat 39) ++ value := by
      unfold sanitize_excel_value
      rw [hcond]
      rfl
    rw [Bool.and_eq_true] at hcond
    refine ⟨⟨fun _ => ⟨hcond.1, hA.mp hcond.2⟩, fun _ => hs⟩, fun hn => ?_⟩
    exact absurd ⟨hcond.1, hA.mp hcond.2⟩ hn

/-- Witness for C10: a string beginning with `=` gets the apostrophe
prefix. -/
theorem c10_witness :
    (true = true ∧ "=SUM(A1)".data.head?
      ∈ [some '=', some '+', some '-', some '/', some '*']) ∧
    sanitize_excel_value "=SUM(A1)" true
      = String.singleton (Char.ofNat 39) ++ "=SUM(A1)" := by
  refine ⟨⟨rfl, by decide⟩, ?_⟩
  exact (c10_sanitize_spec "=SUM(A1)" true).1.mpr ⟨rfl, by decide⟩

/-! ## Claim C2 -/

/-- C2 failing input: when the materialize step fails (the
`CreateSessionObject` reply carries an error payload, so `_get_layout`
returns `None`), `get_dimension_list` does not return an empty list as its
docstring and the spec state — the chained `.get` on `None` raises
`AttributeError`, which propagates to the caller. -/
theorem c2_dimension_list_raises_on_failed_materialize :
    (get_dimension_list failSession).1 = .error "AttributeError" := rfl

/-! ## Claim C6 -/

/-- C6 counterexample: on a channel-level error frame, `_receive` does not
fail with a `ReceiveError` — it returns normally with the absent reply
`None` (and an emptied frame queue), exactly what the claim says it must
not do. -/
theorem c6_counterexample_receive_returns_none :
    _receive wsErrorSession = (none, ⟨0, .i 1, [], []⟩) := rfl

/-- C6 amended: if the channel signals a transport-level error (an ERROR
frame) or raises before one complete reply message has been received,
`_receive` logs the failure and returns the absent reply `None`; no
`ReceiveError`-style exception reaches the caller. -/
theorem c6_receive_none_on_channel_error (st : Session)
    (h : st.stream.head? = some .wserror ∨ st.stream.head? = some .exc) :
    (_receive st).1 = none := by
  rcases st with ⟨a, b, stream, d⟩
  rcases stream with _ | ⟨x, rest⟩
  · simp at h
  · rcases h with h | h <;> (simp at h; subst h; rfl)

/-- Witness for C6 at a concrete session whose first frame is a channel
error. -/
theorem c6_witness :
    (wsErrorSession.stream.head? = some .wserror ∨
      wsErrorSession.stream.head? = some .exc) ∧
    (_receive wsErrorSession).1 = none :=
  ⟨Or.inl rfl, c6_receive_none_on_channel_error wsErrorSession (Or.inl rfl)⟩

/-! ## Claim C5 -/

/-- C5: `_get_layout` returns a layout only when both sequential steps
succeed — whenever it returns `some l`, the `CreateSessionObject` reply
arrived without an error payload, yielded a handle, and the `GetLayout`
reply arrived without an error payload, with `l` exactly that second reply
(never a partial structure); and whenever either step's reply carries an
error payload, the result is `None`. -/
theorem c5_get_layout_spec (st : Session) (d : J) :
    (∀ l, (_get_layout st d).1 = some l →
      ∃ r1 s2 h r2 s4,
        glRecv1 st d = (some r1, s2) ∧ pyIn "error" r1 = .ok false ∧
        glHandle r1 = .ok h ∧ glRecv2 s2 h = (some r2, s4) ∧
        pyIn "error" r2 = .ok false ∧ l = r2) ∧
    (∀ r1 s2, glRecv1 st d = (some r1, s2) →
      pyIn "error" r1 = .ok true → (_get_layout st d).1 = none) ∧
    (∀ r1 s2 h r2 s4, glRecv1 st d = (some r1, s2) →
      pyIn "error" r1 = .ok false → glHandle r1 = .ok h →
      glRecv2 s2 h = (some r2, s4) → pyIn "error" r2 = .ok true →
      (_get_layout st d).1 = none) := by
  refine ⟨?_, ?_, ?_⟩
  · intro l hl
    unfold _get_layout at hl
    rcases h1 : glRecv1 st d with ⟨o?, s2⟩
    rw [h1] at hl
    dsimp only at hl
    rcases o? with _ | r1
    · simp at hl
    · dsimp only at hl
      rcases h2 : pyIn "error" r1 with e | bb
      · rw [h2] at hl; simp at hl
      · rw [h2] at hl
        cases bb with
        | true => simp at hl
        | false =>
          dsimp only at hl
          rcases h3 : glHandle r1 with e | hh
          · rw [h3] at hl; simp at hl
          · rw [h3] at hl
            dsimp only at hl
            rcases h4 : glRecv2 s2 hh with ⟨l2?, s4⟩
            rw [h4] at hl
            dsimp only at hl
            rcases l2? with _ | r2
            · simp at hl
            · dsimp only at hl
              rcases h5 : pyIn "error" r2 with e | b2
              · rw [h5] at hl; simp at hl
              · rw [h5] at hl
                cases b2 with
                | true => simp at hl
                | false =>
                  simp at hl
                  exact ⟨r1, s2, hh, r2, s4, rfl, h2, h3, h4, h5, hl.symm⟩
  · intro r1 s2 h1 herr
    unfold _get_layout
    rw [h1]
    dsimp only
    rw [herr]
  · intro r1 s2 h r2 s4 h1 h2 h3 h4 h5
    unfold _get_layout
    rw [h1]
    dsimp only
    rw [h2]
    dsimp only
    rw [h3]
    dsimp only
    rw [h4]
    dsimp only
    rw [h5]

/-- Witness for C5 at a concrete session whose first reply carries an error
payload: the materialize result is `None`. -/
theorem c5_witness : (_get_layout failSession dimensionListDef).1 = none :=
  (c5_get_layout_spec failSession dimensionListDef).2.1 errorReply _ rfl rfl

/-! ## Claim C1 -/

/-- C1 counterexample: with a measure list of one item `mId1` whose
`GetMeasure` reply carries the error payload `{"error":{"message":"not
found"}}`, the detailed enumerator does *not* omit the item — its output
still contains one row for `mId1`, with the id and title preserved and the
detail fields empty. -/
theorem c1_counterexample_failed_item_included :
    (get_measure_list_detailed enumSession).map Prod.fst
      = .ok [[J.s "mId1", J.s "M1", J.s "", J.s "", J.s "", J.s ""]] := rfl

/-- C1 amended: when a per-item detail fetch receives a reply carrying an
error payload, `get_measure` logs the failure and returns `{}`, and the
detailed enumerator appends a row for that item with its id and title but
empty tags/expression/label/description — then continues enumerating the
remaining items (the loop proceeds on the post-fetch session state). -/
theorem c1_error_item_row_and_continue (st : Session) (m : J)
    (rest : List J) {qi mid qm title r : J} {s2 : Session}
    (h1 : pyGet m "qInfo" (.obj []) = .ok qi)
    (h2 : pyGetNone qi "qId" = .ok mid)
    (h3 : jTruthy mid = true)
    (h4 : pyGet m "qMeta" (.obj []) = .ok qm)
    (h5 : pyGet qm "title" (.s "❗ No Title") = .ok title)
    (h6 : gmRecv st mid = (some r, s2))
    (h7 : pyIn "error" r = .ok true) :
    measure_detail_loop st (m :: rest) =
      (measure_detail_loop s2 rest).map
        (fun p => ([mid, title, .s "", .s "", .s "", .s ""] :: p.1, p.2)) := by
  have hg : get_measure st mid = (.obj [], s2) := by
    unfold get_measure
    rw [h6]
    dsimp only
    rw [h7]
  have hrow : measureRow mid title (.obj [])
      = .ok [mid, title, .s "", .s "", .s "", .s ""] := rfl
  rw [measure_detail_loop, h1]
  dsimp only [Except.instMonad, Except.bind]
  rw [h2]
  dsimp only [Except.instMonad, Except.bind]
  rw [h4]
  dsimp only [Except.instMonad, Except.bind]
  rw [h5]
  dsimp only [Except.instMonad, Except.bind]
  rw [h3]
  simp only [reduceIte]
  rw [hg]
  dsimp only
  rw [hrow]
  dsimp only
  rcases measure_detail_loop s2 rest with e | ⟨rows, s3⟩
  · rfl
  · rfl

/-- Witness for C1's amended claim: one item whose detail reply is an error
payload yields exactly its blank-detail row. -/
theorem c1_witness :
    (measure_detail_loop ⟨3, .i 1, [.text errorReply], []⟩
        [measureItem1]).map Prod.fst
      = .ok [[J.s "mId1", J.s "M1", J.s "", J.s "", J.s "", J.s ""]] := by
  have h := c1_error_item_row_and_continue ⟨3, .i 1, [.text errorReply], []⟩
    measureItem1 [] rfl rfl rfl rfl rfl rfl rfl
  rw [h]
  rfl

/-! ## Claims C7 and C8 -/

theorem dimItemRow_explicit (a0 a1 a2 a3 a4 a5 a6 : J) :
    dimItemRow all_columns [a0, a1, a2, a3, a4, a5, a6] =
      .ok [a0, a1, a5, (if jTruthy a2 then a2 else .s ""), a4, a3, a6,
        .s "Dimension"] := rfl

theorem measItemRow_explicit (d0 d1 d2 d3 d4 d5 d6 b0 b1 b2 b3 b4 b5 : J) :
    measItemRow all_columns (some [d0, d1, d2, d3, d4, d5, d6])
        [b0, b1, b2, b3, b4, b5] =
      .ok [b0, b1, d4, (if jTruthy b5 then b5 else .s ""), b3, b2, .s " ",
        .s "Measure"] := rfl

theorem varItemRow_explicit (b0 b1 b2 b3 : J) :
    varItemRow all_columns [b0, b1, b2, b3] =
      .ok [b0, b1, .s "", .s " ", b2, b3, .s " ", .s "Variable"] := rfl

theorem exists_cons_of_len (l : List J) (n : Nat) (h : l.length = n + 1) :
    ∃ x t, l = x :: t ∧ t.length = n := by
  cases l with
  | nil => cases h
  | cons x t => exact ⟨x, t, rfl, by simpa using h⟩

theorem exists_len7 (l : List J) (h : l.length = 7) :
    ∃ a0 a1 a2 a3 a4 a5 a6 : J, l = [a0, a1, a2, a3, a4, a5, a6] := by
  obtain ⟨x0, l, rfl, h0⟩ := exists_cons_of_len l 6 h
  obtain ⟨x1, l, rfl, h1⟩ := exists_cons_of_len l 5 h0
  obtain ⟨x2, l, rfl, h2⟩ := exists_cons_of_len l 4 h1
  obtain ⟨x3, l, rfl, h3⟩ := exists_cons_of_len l 3 h2
  obtain ⟨x4, l, rfl, h4⟩ := exists_cons_of_len l 2 h3
  obtain ⟨x5, l, rfl, h5⟩ := exists_cons_of_len l 1 h4
  obtain ⟨x6, l, rfl, h6⟩ := exists_cons_of_len l 0 h5
  rw [List.length_eq_zero] at h6
  exact ⟨x0, x1, x2, x3, x4, x5, x6, by rw [h6]⟩

theorem exists_len6 (l : List J) (h : l.length = 6) :
    ∃ a0 a1 a2 a3 a4 a5 : J, l = [a0, a1, a2, a3, a4, a5] := by
  obtain ⟨x0, l, rfl, h0⟩ := exists_cons_of_len l 5 h
  obtain ⟨x1, l, rfl, h1⟩ := exists_cons_of_len l 4 h0
  obtain ⟨x2, l, rfl, h2⟩ := exists_cons_of_len l 3 h1
  obtain ⟨x3, l, rfl, h3⟩ := exists_cons_of_len l 2 h2
  obtain ⟨x4, l, rfl, h4⟩ := exists_cons_of_len l 1 h3
  obtain ⟨x5, l, rfl, h5⟩ := exists_cons_of_len l 0 h4
  rw [List.length_eq_zero] at h5
  exact ⟨x0, x1, x2, x3, x4, x5, by rw [h5]⟩

theorem exists_len4 (l : List J) (h : l.length = 4) :
    ∃ a0 a1 a2 a3 : J, l = [a0, a1, a2, a3] := by
  obtain ⟨x0, l, rfl, h0⟩ := exists_cons_of_len l 3 h
  obtain ⟨x1, l, rfl, h1⟩ := exists_cons_of_len l 2 h0
  obtain ⟨x2, l, rfl, h2⟩ := exists_cons_of_len l 1 h1
  obtain ⟨x3, l, rfl, h3⟩ := exists_cons_of_len l 0 h2
  rw [List.length_eq_zero] at h3
  exact ⟨x0, x1, x2, x3, by rw [h3]⟩

theorem mapRows_eq_map (f : List J → Except String (List J))
    (g : List J → List J) (l : List (List J))
    (h : ∀ x ∈ l, f x = .ok (g x)) : mapRows f l = .ok (l.map g) := by
  induction l with
  | nil => rfl
  | cons x xs ih =>
    rw [mapRows, h x (by simp)]
    dsimp only [Except.instMonad, Except.bind]
    rw [ih (fun y hy => h y (by simp [hy]))]
    rfl

/-- The structural behaviour of `get_masteritems_detailed` on well-formed
detailed records (7-field dimensions, 6-field measures, 4-field variables)
with the default column set: whenever the dimension list is nonempty or the
measure list empty, the combined output is the dimension rows, then the
measure rows, then the variable rows, each obtained by mapping the
corresponding row projection in order. -/
theorem masteritems_structure (dims measures vs : List (List J))
    (h7 : ∀ d ∈ dims, d.length = 7) (h6 : ∀ m ∈ measures, m.length = 6)
    (h4 : ∀ v ∈ vs, v.length = 4) (hne : dims ≠ [] ∨ measures = []) :
    get_masteritems_detailed dims measures vs true none =
      .ok (dims.map dimRowFn
        ++ measures.map (measRowFn (dims.getLast?.getD []))
        ++ vs.map varRowFn) := by
  have hd : mapRows (dimItemRow all_columns) dims
      = .ok (dims.map dimRowFn) := by
    apply mapRows_eq_map
    intro d hdm
    obtain ⟨a0, a1, a2, a3, a4, a5, a6, rfl⟩ := exists_len7 d (h7 d hdm)
    exact dimItemRow_explicit a0 a1 a2 a3 a4 a5 a6
  have hv : mapRows (varItemRow all_columns) vs = .ok (vs.map varRowFn) := by
    apply mapRows_eq_map
    intro v hvm
    obtain ⟨b0, b1, b2, b3, rfl⟩ := exists_len4 v (h4 v hvm)
    exact varItemRow_explicit b0 b1 b2 b3
  have hm : mapRows (measItemRow all_columns dims.getLast?) measures
      = .ok (measures.map (measRowFn (dims.getLast?.getD []))) := by
    rcases hne with hne | hM
    · have hL : dims.getLast? = some (dims.getLast hne) :=
        List.getLast?_eq_getLast dims hne
      obtain ⟨e0, e1, e2, e3, e4, e5, e6, hLeq⟩ :=
        exists_len7 (dims.getLast hne) (h7 _ (List.getLast_mem hne))
      rw [hL, hLeq]
      apply mapRows_eq_map
      intro m hmm
      obtain ⟨b0, b1, b2, b3, b4, b5, rfl⟩ := exists_len6 m (h6 m hmm)
      exact measItemRow_explicit e0 e1 e2 e3 e4 e5 e6 b0 b1 b2 b3 b4 b5
    · subst hM
      rfl
  unfold get_masteritems_detailed
  dsimp only [Option.getD]
  rw [hd]
  dsimp only [Except.instMonad, Except.bind]
  rw [hm]
  dsimp only [Except.instMonad, Except.bind]
  rw [hv]
  dsimp only [Except.instMonad, Except.bind]
  rfl

/-- C7 amended: provided the dimension list is nonempty (or the measure
list is empty — otherwise the measure rows' Label lookup hits the unbound
leftover loop variable and the call fails, see C8), `get_masteritems_detailed`
with variables included returns one combined record list holding all
dimension rows first, then all measure rows, then all variable rows, each
segment preserving its source list's order, and with the ItemType cell set
to `"Dimension"`, `"Measure"`, or `"Variable"` by segment (the last entry
of the respective row projection). -/
theorem c7_amended_combined_order (dims measures vs : List (List J))
    (h7 : ∀ d ∈ dims, d.length = 7) (h6 : ∀ m ∈ measures, m.length = 6)
    (h4 : ∀ v ∈ vs, v.length = 4) (hne : dims ≠ [] ∨ measures = []) :
    get_masteritems_detailed dims measures vs true none =
      .ok (dims.map dimRowFn
        ++ measures.map (measRowFn (dims.getLast?.getD []))
        ++ vs.map varRowFn) :=
  masteritems_structure dims measures vs h7 h6 h4 hne

/-- C7 counterexample: with no dimensions, one well-formed measure and one
variable, `get_masteritems_detailed` (variables included, default columns)
does not return a combined record list at all — it fails with the unbound
loop variable (`NameError`). -/
theorem c7_counterexample_namerror :
    get_masteritems_detailed [] [measRec] [varRec] true none
      = .error "NameError" := rfl

/-- Witness for C7's amended claim: the spec scenario of two dimensions,
one measure and one variable yields the four rows in enumeration order with
ItemType `"Dimension"`, `"Dimension"`, `"Measure"`, `"Variable"`. -/
theorem c7_witness :
    get_masteritems_detailed [dimRecA, dimRecB] [measRec] [varRec] true none
      = .ok [[J.s "d1", J.s "D1", J.s "lblD1", J.s "descD1",
          J.arr [J.s "[F1]"], J.s "t1, t2", J.s "single", J.s "Dimension"],
        [J.s "d2", J.s "D2", J.s "lblD2", J.s "", J.arr [J.s "[F2]"],
          J.s "", J.s "multi", J.s "Dimension"],
        [J.s "m1", J.s "M1", J.arr [J.s "[F2]"], J.s "descM1",
          J.s "Sum(x)", J.s "tg", J.s " ", J.s "Measure"],
        [J.s "v1", J.s "V1", J.s "", J.s " ", J.s "=1+1", J.s "vt",
          J.s " ", J.s "Variable"]] := by
  have h := c7_amended_combined_order [dimRecA, dimRecB] [measRec] [varRec]
    (by simp [dimRecA, dimRecB]) (by simp [measRec]) (by simp [varRec])
    (Or.inl (by simp))
  rw [h]
  rfl

/-- C8: under the default column set, every measure row's Label cell (index
2) is read from index 4 of the last dimension's detailed record — the loop
variable left over from the dimensions loop — not from the measure's own
record; and when the dimension list is empty, producing any measure row
fails with the unbound-name error (`NameError`) instead of returning the
measure rows. -/
theorem c8_label_leak :
    (∀ (dims measures vs : List (List J)),
      (∀ d ∈ dims, d.length = 7) → (∀ m ∈ measures, m.length = 6) →
      (∀ v ∈ vs, v.length = 4) → ∀ _hne : dims ≠ [],
      ∀ rows,
        get_masteritems_detailed dims measures vs true none = .ok rows →
      ∀ k, k < measures.length →
        (rows.get? (dims.length + k)).bind (fun row => row.get? 2)
          = (dims.getLast?.getD []).get? 4) ∧
    (∀ (m : List J) (rest vs : List (List J)), m.length = 6 →
      get_masteritems_detailed [] (m :: rest) vs true none
        = .error "NameError") := by
  constructor
  · intro dims measures vs h7 h6 h4 hne rows hrows k hk
    have hstruct := masteritems_structure dims measures vs h7 h6 h4
      (Or.inl hne)
    rw [hrows] at hstruct
    injection hstruct with hr
    subst hr
    rw [List.get?_append (by simp; omega)]
    rw [List.get?_append_right (by rw [List.length_map]; omega)]
    rw [List.length_map]
    have hidx : dims.length + k - dims.length = k := by omega
    rw [hidx]
    rw [List.get?_map]
    rw [List.get?_eq_get hk]
    have hL : dims.getLast? = some (dims.getLast hne) :=
      List.getLast?_eq_getLast dims hne
    obtain ⟨e0, e1, e2, e3, e4, e5, e6, hLeq⟩ :=
      exists_len7 (dims.getLast hne) (h7 _ (List.getLast_mem hne))
    rw [hL]
    dsimp only [Option.getD]
    rw [hLeq]
    rfl
  · intro m rest vs hm
    obtain ⟨b0, b1, b2, b3, b4, b5, rfl⟩ := exists_len6 m hm
    rfl

/-- Witness for C8: a concrete well-formed measure with an empty dimension
list makes the merged enumeration fail with `NameError`. -/
theorem c8_witness :
    measRec.length = 6 ∧
    get_masteritems_detailed [] [measRec] [] true none
      = .error "NameError" :=
  ⟨rfl, c8_label_leak.2 measRec [] [] rfl⟩
